import Mathlib

/-!
Verification of the macOS system-tray / notification shim
(`macosx/tkMacOSXSysTray.c`) against its specification.

The C file registers two Tcl commands, `_systray` (create / modify /
destroy a status-bar icon) and `_sysnotify` (post a desktop
notification).  We give a shallow embedding: the observable state of the
two Objective-C adapter singletons (`TkStatusItem`, `TkNotifyItem`) and
the global `callbackproc` pointer are explicit records, each C command
procedure becomes a Lean function from arguments and state to an
optional result/state pair (`none` models an out-of-bounds `argv` read,
which is undefined behavior in the C), and the host facilities the file
calls into (`Tk_GetImage`, `TkMacOSXGetNSImageFromTkImage`,
`stringWithUTF8String`) are modeled by explicit parameters.
-/

/-- Completion status of a Tcl command, together with the message the C
code appends to the interpreter result on failure
(`Tcl_AppendResult` followed by `return TCL_ERROR`). -/
inductive TclResult where
  | ok : TclResult
  | error (msg : String) : TclResult
deriving DecidableEq

/-- The integer completion code `TCL_OK`. -/
def TCL_OK : Int := 0

/-- A non-null C string argument as Tcl passes it to a command procedure:
its bytes, plus whether those bytes are valid UTF-8 (which decides
whether `stringWithUTF8String` succeeds on it). -/
structure CStr where
  bytes : String
  validUTF8 : Bool
deriving DecidableEq

/-- Model of `[NSString stringWithUTF8String: s]`: returns the string when the
bytes are valid UTF-8, and `nil` (here `none`) otherwise. -/
def stringWithUTF8String (s : CStr) : Option String :=
  if s.validUTF8 then some s.bytes else none

/-- A Tk image handle as produced by `Tk_GetImage`, with the dimensions
`Tk_SizeOfImage` reports for it. -/
structure TkImage where
  width : Nat
  height : Nat
  name : String
deriving DecidableEq

/-- A native `NSImage` produced from a Tk image by
`TkMacOSXGetNSImageFromTkImage`. -/
structure NSImage where
  fromTk : TkImage
deriving DecidableEq

/-- Model of `TkMacOSXGetNSImageFromTkImage(display, image, width, height)`:
converts a Tk image into a native bitmap. -/
def TkMacOSXGetNSImageFromTkImage (img : TkImage) (_width _height : Nat) :
    NSImage :=
  ⟨img⟩

/-- The host-interpreter facilities the file calls into: `Tk_GetImage`
resolving an image name to an image handle (`none` = lookup failure). -/
structure TkEnv where
  imageLookup : String → Option TkImage

/-- Observable state of the `TkStatusItem` singleton: the icon set by
`setImagewithImage`, the tooltip set by `setTextwithString`, and whether
`dealloc` has removed the item from the status bar. -/
structure TkStatusItem where
  icon : Option NSImage
  tooltip : Option String
  removedFromBar : Bool
deriving DecidableEq

/-- Model of `[[TkStatusItem alloc] init]`: fresh status item, no icon, no
tooltip, visible in the bar. -/
def TkStatusItem.initItem : TkStatusItem :=
  { icon := none, tooltip := none, removedFromBar := false }

/-- Method `setImagewithImage:` replaces the displayed icon. -/
def setImagewithImage (item : TkStatusItem) (image : NSImage) : TkStatusItem :=
  { item with icon := some image }

/-- Method `setTextwithString:` replaces the tooltip string. -/
def setTextwithString (item : TkStatusItem) (string : String) : TkStatusItem :=
  { item with tooltip := some string }

/-- Method `dealloc` removes the status entry from the status bar. -/
def TkStatusItem.deallocItem (item : TkStatusItem) : TkStatusItem :=
  { item with removedFromBar := true }

/-- Observable state of the `TkNotifyItem` singleton: the title and
informative text last written into its `NSUserNotification` descriptor,
its sound name, whether it installed itself as the notification-center
delegate, and how many notifications it has delivered. -/
structure TkNotifyItem where
  header : Option String
  info : Option String
  soundName : Option String
  delegateInstalled : Bool
  deliveredCount : Nat
deriving DecidableEq

/-- Model of `[[TkNotifyItem alloc] init]`: fresh descriptor, nothing set. -/
def TkNotifyItem.initItem : TkNotifyItem :=
  { header := none, info := none, soundName := none,
    delegateInstalled := false, deliveredCount := 0 }

/-- Method `postNotificationWithTitle:message:` sets title and informative
text on the descriptor (the arguments are `NSString *` and may be nil),
attaches the default sound, installs the adapter as delegate, and
delivers the notification. -/
def postNotificationWithTitle (item : TkNotifyItem)
    (title detail : Option String) : TkNotifyItem :=
  { item with
    header := title
    info := detail
    soundName := some "NSUserNotificationDefaultSoundName"
    delegateInstalled := true
    deliveredCount := item.deliveredCount + 1 }

/-- The mutable state `MacSystrayCmd` acts on: the `tk_item` singleton
and the file-global `callbackproc` pointer (`none` = `NULL`). -/
structure SysTrayState where
  tk_item : TkStatusItem
  callbackproc : Option CStr
deriving DecidableEq

/-- Model of `strncmp(s, t, n) == 0` on nul-terminated strings given as character
lists: the comparison stops at the first difference, at a terminating
nul (the end of either list), or after `n` characters. -/
def strncmpEq : List Char → List Char → Nat → Bool
  | _, _, 0 => true
  | [], [], _ + 1 => true
  | [], _ :: _, _ + 1 => false
  | _ :: _, [], _ + 1 => false
  | a :: s, b :: t, n + 1 => a == b && strncmpEq s t n

/-- The subcommand test `MacSystrayCmd` applies, with
`length = strlen(argv[1])`:
`(strncmp(argv[1], word, length) == 0) && (length >= 2)`. -/
def matchesWord (arg : CStr) (w : String) : Bool :=
  strncmpEq arg.bytes.data w.data arg.bytes.length && decide (2 ≤ arg.bytes.length)

/-- Body of the `create` branch of `MacSystrayCmd` once `argc >= 5` is
established and `argv[2]`, `argv[3]`, `argv[4]` have been read. -/
def systrayCreateArgs (env : TkEnv) (arg2 arg3 arg4 : CStr)
    (st : SysTrayState) : TclResult × SysTrayState :=
  match env.imageLookup arg2.bytes with
  | none => (TclResult.error " unable to obtain image for systray icon", st)
  | some tk_image =>
    let icon := TkMacOSXGetNSImageFromTkImage tk_image tk_image.width tk_image.height
    let st1 :=
      if tk_image.width ≠ 0 ∧ tk_image.height ≠ 0 then
        { st with tk_item := setImagewithImage st.tk_item icon }
      else st
    match stringWithUTF8String arg3 with
    | none => (TclResult.error " unable to set tooltip for systray icon", st1)
    | some tooltip =>
      let st2 := { st1 with tk_item := setTextwithString st1.tk_item tooltip }
      let cb : Option CStr := some arg4
      let st3 := { st2 with callbackproc := cb }
      if cb = none then
        (TclResult.error " unable to get the callback for systray icon", st3)
      else
        (TclResult.ok, st3)

/-- The `create` branch of `MacSystrayCmd`: argument-count check, then
the body on `argv[2..4]` (`none` = out-of-bounds read, unreachable after
the count check). -/
def systrayCreate (env : TkEnv) (argv : List CStr) (st : SysTrayState) :
    Option (TclResult × SysTrayState) :=
  if argv.length < 5 then
    some (TclResult.error
      " wrong # args: should be \"systray create image ? text? callback?\"", st)
  else
    match argv.get? 2, argv.get? 3, argv.get? 4 with
    | some arg2, some arg3, some arg4 =>
      some (systrayCreateArgs env arg2 arg3 arg4 st)
    | _, _, _ => none

/-- Body of the `modify` branch of `MacSystrayCmd` once `argc >= 4` is
established; `arg2` is the target word, `arg3` the new value.  The C
tests `strcmp(modifyitem, "image"/"text"/"callback")` in sequence; the
three literals are pairwise distinct, so at most one block runs. -/
def systrayModifyArgs (env : TkEnv) (arg2 arg3 : CStr)
    (st : SysTrayState) : TclResult × SysTrayState :=
  if arg2.bytes = "image" then
    match env.imageLookup arg3.bytes with
    | none => (TclResult.error " unable to obtain image for systray icon", st)
    | some tk_image =>
      let icon := TkMacOSXGetNSImageFromTkImage tk_image tk_image.width tk_image.height
      let st1 :=
        if tk_image.width ≠ 0 ∧ tk_image.height ≠ 0 then
          { st with tk_item := setImagewithImage st.tk_item icon }
        else st
      (TclResult.ok, st1)
  else if arg2.bytes = "text" then
    match stringWithUTF8String arg3 with
    | none => (TclResult.error " unable to set tooltip for systray icon", st)
    | some tooltip =>
      (TclResult.ok, { st with tk_item := setTextwithString st.tk_item tooltip })
  else if arg2.bytes = "callback" then
    let cb : Option CStr := some arg3
    let st1 := { st with callbackproc := cb }
    if cb = none then
      (TclResult.error " unable to get the callback for systray icon", st1)
    else
      (TclResult.ok, st1)
  else
    (TclResult.ok, st)

/-- The `modify` branch of `MacSystrayCmd`: argument-count check, then
the body on `argv[2]`, `argv[3]`. -/
def systrayModify (env : TkEnv) (argv : List CStr) (st : SysTrayState) :
    Option (TclResult × SysTrayState) :=
  if argv.length < 4 then
    some (TclResult.error
      "wrong # args: should be \"systray modify object item?\"", st)
  else
    match argv.get? 2, argv.get? 3 with
    | some arg2, some arg3 => some (systrayModifyArgs env arg2 arg3 st)
    | _, _ => none

/-- Model of `MacSystrayCmd`: reads `strlen(argv[1])` first (so an invocation
without a subcommand word is outside the defined domain, modeled as
`none`), then dispatches on the prefix test against `create`, `modify`,
`destroy`; an unmatched word falls through to `return TCL_OK`. -/
def MacSystrayCmd (env : TkEnv) (argv : List CStr) (st : SysTrayState) :
    Option (TclResult × SysTrayState) :=
  match argv.get? 1 with
  | none => none
  | some arg1 =>
    if matchesWord arg1 "create" then
      systrayCreate env argv st
    else if matchesWord arg1 "modify" then
      systrayModify env argv st
    else if matchesWord arg1 "destroy" then
      some (TclResult.ok, { st with tk_item := st.tk_item.deallocItem })
    else
      some (TclResult.ok, st)

/-- Model of `SysNotifyCmd`: with fewer than three words, appends a usage message
built from `argv[0]` and errors; otherwise converts `argv[1]` and
`argv[2]` with `stringWithUTF8String` (unchecked, so a failed conversion
stores nil) and posts the notification. -/
def SysNotifyCmd (argv : List CStr) (item : TkNotifyItem) :
    Option (TclResult × TkNotifyItem) :=
  match argv.get? 0 with
  | none => none
  | some arg0 =>
    if argv.length < 3 then
      some (TclResult.error
        ("wrong # args,must be:" ++ arg0.bytes ++ " title  message "), item)
    else
      match argv.get? 1, argv.get? 2 with
      | some arg1, some arg2 =>
        some (TclResult.ok,
          postNotificationWithTitle item (stringWithUTF8String arg1)
            (stringWithUTF8String arg2))
      | _, _ => none

/-- Interpreter state visible to `MacSystrayInit`: the result string
(`Tcl_AppendResult` appends to it) and the names of the commands
registered with `Tcl_CreateCommand`. -/
structure InterpState where
  result : String
  commands : List String
deriving DecidableEq

/-- What `MacSystrayInit` produces: its `int` return code, the updated
interpreter state, and the two freshly allocated singletons. -/
structure InitOutcome where
  code : Int
  interp : InterpState
  tray : SysTrayState
  notify : TkNotifyItem
deriving DecidableEq

/-- Model of `MacSystrayInit`: allocates `tk_item` and `notify_item`, then, when
`[NSApp macOSVersion] < 101000`, appends a warning to the interpreter
result and returns `TCL_OK` without registering any command; otherwise
registers `_systray` and `_sysnotify`. -/
def MacSystrayInit (macOSVersion : Int) (interp : InterpState) : InitOutcome :=
  let tk_item := TkStatusItem.initItem
  let notify_item := TkNotifyItem.initItem
  if macOSVersion < 101000 then
    { code := TCL_OK
      interp := { interp with result := interp.result ++
        "Statusitem icons not supported on versions of macOS lower than 10.10" }
      tray := { tk_item := tk_item, callbackproc := none }
      notify := notify_item }
  else
    { code := TCL_OK
      interp := { interp with commands :=
        interp.commands ++ ["_systray", "_sysnotify"] }
      tray := { tk_item := tk_item, callbackproc := none }
      notify := notify_item }

/-- A valid-UTF-8 command argument (the common case). -/
def cs (s : String) : CStr :=
  { bytes := s, validUTF8 := true }

/-- An argument whose bytes are not valid UTF-8, so that
`stringWithUTF8String` fails on it. -/
def csBad (s : String) : CStr :=
  { bytes := s, validUTF8 := false }

/-- Fresh interpreter state: empty result, no commands registered. -/
def interp0 : InterpState :=
  { result := "", commands := [] }

/-- Tray state as `MacSystrayInit` leaves it. -/
def st0 : SysTrayState :=
  { tk_item := TkStatusItem.initItem, callbackproc := none }

/-- A 16x16 test image. -/
def img16 : TkImage :=
  { width := 16, height := 16, name := "icon16" }

/-- A zero-width test image. -/
def imgFlat : TkImage :=
  { width := 0, height := 16, name := "flat" }

/-- A host environment resolving exactly the two test image names. -/
def env1 : TkEnv :=
  { imageLookup := fun s =>
      if s = "icon16" then some img16
      else if s = "flat" then some imgFlat
      else none }

/-! ### Helper lemmas -/

/-- The test `strncmp(s, t, strlen(s)) == 0` is exactly the prefix test: the
first `strlen(s)` characters of `t` agree with `s` iff `s` is a prefix
of `t`. -/
theorem strncmpEq_length_eq_isPrefixOf (s : List Char) :
    ∀ t : List Char, strncmpEq s t s.length = s.isPrefixOf t := by
  induction s with
  | nil => intro t; cases t <;> rfl
  | cons a s ih =>
    intro t
    cases t with
    | nil => rfl
    | cons b t => simp [strncmpEq, List.isPrefixOf, List.length_cons, ih]


/-- The lemma above specialised to a `String` word and its own length. -/
theorem strncmpEq_string (s w : String) :
    strncmpEq s.data w.data s.length = s.data.isPrefixOf w.data :=
  strncmpEq_length_eq_isPrefixOf s.data w.data

/-- The subcommand test of `MacSystrayCmd` succeeds exactly when the
supplied word is a prefix of the full spelling and has length at
least 2. -/
theorem matchesWord_iff (arg : CStr) (w : String) :
    matchesWord arg w = true ↔
      (arg.bytes.data.isPrefixOf w.data = true ∧ 2 ≤ arg.bytes.length) := by
  unfold matchesWord
  rw [strncmpEq_string]
  simp

/-- A word that passes the `modify` test cannot pass the `create` test:
its first character is `m`, not `c`. -/
theorem matchesWord_modify_ne_create (a : CStr)
    (h : matchesWord a "modify" = true) :
    matchesWord a "create" = false := by
  rcases (matchesWord_iff a "modify").mp h with ⟨hpre, hlen⟩
  cases hb : matchesWord a "create" with
  | false => rfl
  | true =>
    rcases (matchesWord_iff a "create").mp hb with ⟨hpre2, -⟩
    rcases hd : a.bytes.data with _ | ⟨c0, rest⟩
    · simp [show a.bytes.length = a.bytes.data.length from rfl, hd] at hlen
    · rw [hd] at hpre hpre2
      rw [show "modify".data = ['m', 'o', 'd', 'i', 'f', 'y'] from rfl] at hpre
      rw [show "create".data = ['c', 'r', 'e', 'a', 't', 'e'] from rfl] at hpre2
      simp [List.isPrefixOf] at hpre hpre2
      rcases hpre with ⟨hc0, -⟩
      rcases hpre2 with ⟨hc0bad, -⟩
      rw [hc0] at hc0bad
      exact absurd hc0bad (by decide)

/-- Dispatch: a word passing the `create` test sends the command into
the `create` branch. -/
theorem MacSystrayCmd_create_branch (env : TkEnv) (argv : List CStr)
    (st : SysTrayState) (a1 : CStr) (h1 : argv.get? 1 = some a1)
    (hm : matchesWord a1 "create" = true) :
    MacSystrayCmd env argv st = systrayCreate env argv st := by
  unfold MacSystrayCmd
  rw [h1]
  simp [hm]

/-- Dispatch: a word passing the `modify` test fails the `create` test
and sends the command into the `modify` branch. -/
theorem MacSystrayCmd_modify_branch (env : TkEnv) (argv : List CStr)
    (st : SysTrayState) (a1 : CStr) (h1 : argv.get? 1 = some a1)
    (hm : matchesWord a1 "modify" = true) :
    MacSystrayCmd env argv st = systrayModify env argv st := by
  unfold MacSystrayCmd
  rw [h1]
  simp [hm, matchesWord_modify_ne_create a1 hm]

/-- With at least five words, the `create` branch runs its body on
`argv[2..4]`. -/
theorem systrayCreate_of_get (env : TkEnv) (argv : List CStr)
    (st : SysTrayState) (a2 a3 a4 : CStr) (hlen : 5 ≤ argv.length)
    (h2 : argv.get? 2 = some a2) (h3 : argv.get? 3 = some a3)
    (h4 : argv.get? 4 = some a4) :
    systrayCreate env argv st = some (systrayCreateArgs env a2 a3 a4 st) := by
  unfold systrayCreate
  rw [if_neg (by omega), h2, h3, h4]

/-- With at least four words, the `modify` branch runs its body on
`argv[2]`, `argv[3]`. -/
theorem systrayModify_of_get (env : TkEnv) (argv : List CStr)
    (st : SysTrayState) (a2 a3 : CStr) (hlen : 4 ≤ argv.length)
    (h2 : argv.get? 2 = some a2) (h3 : argv.get? 3 = some a3) :
    systrayModify env argv st = some (systrayModifyArgs env a2 a3 st) := by
  unfold systrayModify
  rw [if_neg (by omega), h2, h3]

/-- The `create` branch always yields a defined outcome: short argument
lists get the usage error, longer ones reach the body. -/
theorem systrayCreate_isSome (env : TkEnv) (argv : List CStr)
    (st : SysTrayState) : (systrayCreate env argv st).isSome = true := by
  unfold systrayCreate
  by_cases h : argv.length < 5
  · rw [if_pos h]; rfl
  · rw [if_neg h]
    push_neg at h
    rw [List.get?_eq_get (show 2 < argv.length by omega),
        List.get?_eq_get (show 3 < argv.length by omega),
        List.get?_eq_get (show 4 < argv.length by omega)]
    rfl

/-- The `modify` branch always yields a defined outcome. -/
theorem systrayModify_isSome (env : TkEnv) (argv : List CStr)
    (st : SysTrayState) : (systrayModify env argv st).isSome = true := by
  unfold systrayModify
  by_cases h : argv.length < 4
  · rw [if_pos h]; rfl
  · rw [if_neg h]
    push_neg at h
    rw [List.get?_eq_get (show 2 < argv.length by omega),
        List.get?_eq_get (show 3 < argv.length by omega)]
    rfl

/-- Once `argv[1]` exists, every dispatch branch yields a defined
outcome. -/
theorem MacSystrayCmd_isSome_of_get (env : TkEnv) (argv : List CStr)
    (st : SysTrayState) (a1 : CStr) (h1 : argv.get? 1 = some a1) :
    (MacSystrayCmd env argv st).isSome = true := by
  unfold MacSystrayCmd
  rw [h1]
  dsimp only
  by_cases hc : matchesWord a1 "create" = true
  · rw [if_pos hc]; exact systrayCreate_isSome env argv st
  · rw [if_neg hc]
    by_cases hm : matchesWord a1 "modify" = true
    · rw [if_pos hm]; exact systrayModify_isSome env argv st
    · rw [if_neg hm]
      by_cases hd : matchesWord a1 "destroy" = true
      · rw [if_pos hd]; rfl
      · rw [if_neg hd]; rfl

/-! ### Claims -/

/-- Claim C4: a supplied subcommand word matches a subcommand's full
spelling if and only if it is a prefix of that spelling and is at least
2 characters long; in particular `"c"` does not match `"create"` while
`"cr"` does. -/
theorem C4_subcommand_matching :
    (∀ (arg : CStr) (w : String),
        matchesWord arg w = true ↔
          (arg.bytes.data.isPrefixOf w.data = true ∧ 2 ≤ arg.bytes.length))
    ∧ matchesWord (cs "c") "create" = false
    ∧ matchesWord (cs "cr") "create" = true :=
  ⟨matchesWord_iff, by decide, by decide⟩

/-- Claim C4 witness: the characterization applied at the concrete word
`"mo"` against `"modify"`. -/
theorem C4_witness : matchesWord (cs "mo") "modify" = true :=
  (C4_subcommand_matching.1 (cs "mo") "modify").mpr ⟨by decide, by decide⟩

/-- Claim C10: the tray dispatcher reads `strlen(argv[1])` before any
argument-count validation, so its outcome is defined exactly when the
invocation has at least two words. -/
theorem C10_dispatcher_defined_iff (env : TkEnv) (argv : List CStr)
    (st : SysTrayState) :
    (MacSystrayCmd env argv st).isSome = true ↔ 2 ≤ argv.length := by
  constructor
  · intro h
    by_contra hlt
    have hnone : argv.get? 1 = none := List.get?_eq_none.mpr (by omega)
    unfold MacSystrayCmd at h
    rw [hnone] at h
    simp at h
  · intro h2
    exact MacSystrayCmd_isSome_of_get env argv st _
      (List.get?_eq_get (by omega))

/-- Claim C10 witness: a two-word `destroy` invocation is inside the
domain; the iff applied at that input. -/
theorem C10_witness :
    (MacSystrayCmd env1 [cs "_systray", cs "destroy"] st0).isSome = true :=
  (C10_dispatcher_defined_iff env1 [cs "_systray", cs "destroy"] st0).mpr
    (by decide)

/-- Claim C2: a `create` whose image argument resolves to a non-zero-area
image but whose tooltip argument fails text conversion returns an error,
yet the status item's image has already been replaced by the new image;
the tooltip and the stored callback string are not mutated. -/
theorem C2_create_tooltip_failure_keeps_new_image (env : TkEnv)
    (argv : List CStr) (st : SysTrayState) (a1 a2 a3 a4 : CStr)
    (img : TkImage) (h1 : argv.get? 1 = some a1)
    (hm : matchesWord a1 "create" = true) (hlen : 5 ≤ argv.length)
    (h2 : argv.get? 2 = some a2) (h3 : argv.get? 3 = some a3)
    (h4 : argv.get? 4 = some a4)
    (himg : env.imageLookup a2.bytes = some img)
    (hw : img.width ≠ 0) (hh : img.height ≠ 0)
    (htt : a3.validUTF8 = false) :
    MacSystrayCmd env argv st =
      some (TclResult.error " unable to set tooltip for systray icon",
        { st with tk_item := { st.tk_item with icon := some ⟨img⟩ } }) := by
  rw [MacSystrayCmd_create_branch env argv st a1 h1 hm,
      systrayCreate_of_get env argv st a2 a3 a4 hlen h2 h3 h4]
  unfold systrayCreateArgs
  rw [himg]
  simp [stringWithUTF8String, htt, hw, hh, setImagewithImage,
    TkMacOSXGetNSImageFromTkImage]

/-- Claim C2 witness: concrete `create` with resolvable 16x16 image and
invalid-UTF-8 tooltip. -/
theorem C2_witness :
    MacSystrayCmd env1
        [cs "_systray", cs "create", cs "icon16", csBad "tip", cs "cb"] st0 =
      some (TclResult.error " unable to set tooltip for systray icon",
        { st0 with tk_item := { st0.tk_item with icon := some ⟨img16⟩ } }) :=
  C2_create_tooltip_failure_keeps_new_image env1 _ st0 _ _ _ _ img16
    rfl (by decide) (by decide) rfl rfl rfl rfl (by decide) (by decide) rfl

/-- Claim C3: a `create` or `modify image` whose image name fails to
resolve returns the image-lookup error and leaves the whole tray state
(image, tooltip, stored callback) unchanged. -/
theorem C3_unresolvable_image_error_no_mutation :
    (∀ (env : TkEnv) (argv : List CStr) (st : SysTrayState) (a1 a2 : CStr),
        argv.get? 1 = some a1 → matchesWord a1 "create" = true →
        5 ≤ argv.length → argv.get? 2 = some a2 →
        env.imageLookup a2.bytes = none →
        MacSystrayCmd env argv st =
          some (TclResult.error " unable to obtain image for systray icon", st))
    ∧ (∀ (env : TkEnv) (argv : List CStr) (st : SysTrayState) (a1 a2 a3 : CStr),
        argv.get? 1 = some a1 → matchesWord a1 "modify" = true →
        4 ≤ argv.length → argv.get? 2 = some a2 → a2.bytes = "image" →
        argv.get? 3 = some a3 → env.imageLookup a3.bytes = none →
        MacSystrayCmd env argv st =
          some (TclResult.error " unable to obtain image for systray icon", st)) := by
  constructor
  · intro env argv st a1 a2 h1 hm hlen h2 himg
    obtain ⟨a3, h3⟩ : ∃ x, argv.get? 3 = some x :=
      ⟨_, List.get?_eq_get (by omega)⟩
    obtain ⟨a4, h4⟩ : ∃ x, argv.get? 4 = some x :=
      ⟨_, List.get?_eq_get (by omega)⟩
    rw [MacSystrayCmd_create_branch env argv st a1 h1 hm,
        systrayCreate_of_get env argv st a2 a3 a4 hlen h2 h3 h4]
    unfold systrayCreateArgs
    rw [himg]
  · intro env argv st a1 a2 a3 h1 hm hlen h2 hb h3 himg
    rw [MacSystrayCmd_modify_branch env argv st a1 h1 hm,
        systrayModify_of_get env argv st a2 a3 hlen h2 h3]
    unfold systrayModifyArgs
    rw [if_pos hb, himg]

/-- Claim C3 witness: the two cases at concrete inputs whose image name
`"ghost"` does not resolve. -/
theorem C3_witness :
    MacSystrayCmd env1
        [cs "_systray", cs "create", cs "ghost", cs "tip", cs "cb"] st0 =
      some (TclResult.error " unable to obtain image for systray icon", st0) ∧
    MacSystrayCmd env1
        [cs "_systray", cs "modify", cs "image", cs "ghost"] st0 =
      some (TclResult.error " unable to obtain image for systray icon", st0) :=
  ⟨C3_unresolvable_image_error_no_mutation.1 env1 _ st0 _ _
      rfl (by decide) (by decide) rfl rfl,
    C3_unresolvable_image_error_no_mutation.2 env1 _ st0 _ _ _
      rfl (by decide) (by decide) rfl rfl rfl rfl⟩

/-- Claim C5: a successful `modify image`, `modify text`, or
`modify callback` changes exactly the targeted field to the supplied
value and leaves the other two fields at their prior values. -/
theorem C5_modify_changes_only_target :
    (∀ (env : TkEnv) (argv : List CStr) (st : SysTrayState)
        (a1 a2 a3 : CStr) (img : TkImage),
        argv.get? 1 = some a1 → matchesWord a1 "modify" = true →
        4 ≤ argv.length → argv.get? 2 = some a2 → a2.bytes = "image" →
        argv.get? 3 = some a3 → env.imageLookup a3.bytes = some img →
        img.width ≠ 0 → img.height ≠ 0 →
        MacSystrayCmd env argv st =
          some (TclResult.ok,
            { st with tk_item := { st.tk_item with icon := some ⟨img⟩ } }))
    ∧ (∀ (env : TkEnv) (argv : List CStr) (st : SysTrayState) (a1 a2 a3 : CStr),
        argv.get? 1 = some a1 → matchesWord a1 "modify" = true →
        4 ≤ argv.length → argv.get? 2 = some a2 → a2.bytes = "text" →
        argv.get? 3 = some a3 → a3.validUTF8 = true →
        MacSystrayCmd env argv st =
          some (TclResult.ok,
            { st with tk_item := { st.tk_item with tooltip := some a3.bytes } }))
    ∧ (∀ (env : TkEnv) (argv : List CStr) (st : SysTrayState) (a1 a2 a3 : CStr),
        argv.get? 1 = some a1 → matchesWord a1 "modify" = true →
        4 ≤ argv.length → argv.get? 2 = some a2 → a2.bytes = "callback" →
        argv.get? 3 = some a3 →
        MacSystrayCmd env argv st =
          some (TclResult.ok, { st with callbackproc := some a3 })) := by
  refine ⟨?_, ?_, ?_⟩
  · intro env argv st a1 a2 a3 img h1 hm hlen h2 hb h3 himg hw hh
    rw [MacSystrayCmd_modify_branch env argv st a1 h1 hm,
        systrayModify_of_get env argv st a2 a3 hlen h2 h3]
    unfold systrayModifyArgs
    rw [if_pos hb, himg]
    simp [hw, hh, setImagewithImage, TkMacOSXGetNSImageFromTkImage]
  · intro env argv st a1 a2 a3 h1 hm hlen h2 hb h3 htt
    rw [MacSystrayCmd_modify_branch env argv st a1 h1 hm,
        systrayModify_of_get env argv st a2 a3 hlen h2 h3]
    unfold systrayModifyArgs
    rw [if_neg (by simp [hb]), if_pos hb]
    simp [stringWithUTF8String, htt, setTextwithString]
  · intro env argv st a1 a2 a3 h1 hm hlen h2 hb h3
    rw [MacSystrayCmd_modify_branch env argv st a1 h1 hm,
        systrayModify_of_get env argv st a2 a3 hlen h2 h3]
    unfold systrayModifyArgs
    rw [if_neg (by simp [hb]), if_neg (by simp [hb]), if_pos hb]
    simp

/-- Claim C5 witness: the three modify forms at concrete inputs. -/
theorem C5_witness :
    MacSystrayCmd env1 [cs "_systray", cs "modify", cs "image", cs "icon16"]
        st0 =
      some (TclResult.ok,
        { st0 with tk_item := { st0.tk_item with icon := some ⟨img16⟩ } }) ∧
    MacSystrayCmd env1 [cs "_systray", cs "modify", cs "text", cs "hello"]
        st0 =
      some (TclResult.ok,
        { st0 with tk_item := { st0.tk_item with tooltip := some "hello" } }) ∧
    MacSystrayCmd env1 [cs "_systray", cs "modify", cs "callback", cs "beep"]
        st0 =
      some (TclResult.ok, { st0 with callbackproc := some (cs "beep") }) :=
  ⟨C5_modify_changes_only_target.1 env1
      [cs "_systray", cs "modify", cs "image", cs "icon16"] st0
      (cs "modify") (cs "image") (cs "icon16") img16
      rfl (by decide) (by decide) rfl rfl rfl rfl (by decide) (by decide),
    C5_modify_changes_only_target.2.1 env1
      [cs "_systray", cs "modify", cs "text", cs "hello"] st0
      (cs "modify") (cs "text") (cs "hello")
      rfl (by decide) (by decide) rfl rfl rfl rfl,
    C5_modify_changes_only_target.2.2 env1
      [cs "_systray", cs "modify", cs "callback", cs "beep"] st0
      (cs "modify") (cs "callback") (cs "beep")
      rfl (by decide) (by decide) rfl rfl rfl⟩

/-- Claim C6: a `create` or `modify image` whose image resolves with
width 0 or height 0 never mutates the status item's image and raises no
error: `modify image` returns TCL_OK with the state untouched, and
`create` continues with the tooltip and callback steps. -/
theorem C6_zero_area_image_skipped :
    (∀ (env : TkEnv) (argv : List CStr) (st : SysTrayState)
        (a1 a2 a3 a4 : CStr) (img : TkImage),
        argv.get? 1 = some a1 → matchesWord a1 "create" = true →
        5 ≤ argv.length → argv.get? 2 = some a2 → argv.get? 3 = some a3 →
        argv.get? 4 = some a4 → env.imageLookup a2.bytes = some img →
        (img.width = 0 ∨ img.height = 0) → a3.validUTF8 = true →
        MacSystrayCmd env argv st =
          some (TclResult.ok,
            { st with
              tk_item := { st.tk_item with tooltip := some a3.bytes },
              callbackproc := some a4 }))
    ∧ (∀ (env : TkEnv) (argv : List CStr) (st : SysTrayState)
        (a1 a2 a3 : CStr) (img : TkImage),
        argv.get? 1 = some a1 → matchesWord a1 "modify" = true →
        4 ≤ argv.length → argv.get? 2 = some a2 → a2.bytes = "image" →
        argv.get? 3 = some a3 → env.imageLookup a3.bytes = some img →
        (img.width = 0 ∨ img.height = 0) →
        MacSystrayCmd env argv st = some (TclResult.ok, st)) := by
  constructor
  · intro env argv st a1 a2 a3 a4 img h1 hm hlen h2 h3 h4 himg hzero htt
    rw [MacSystrayCmd_create_branch env argv st a1 h1 hm,
        systrayCreate_of_get env argv st a2 a3 a4 hlen h2 h3 h4]
    unfold systrayCreateArgs
    rw [himg]
    have hfalse : ¬(img.width ≠ 0 ∧ img.height ≠ 0) := by
      rcases hzero with h | h <;> simp [h]
    simp [hfalse, stringWithUTF8String, htt, setTextwithString]
  · intro env argv st a1 a2 a3 img h1 hm hlen h2 hb h3 himg hzero
    rw [MacSystrayCmd_modify_branch env argv st a1 h1 hm,
        systrayModify_of_get env argv st a2 a3 hlen h2 h3]
    unfold systrayModifyArgs
    rw [if_pos hb, himg]
    have hfalse : ¬(img.width ≠ 0 ∧ img.height ≠ 0) := by
      rcases hzero with h | h <;> simp [h]
    simp [hfalse]

/-- Claim C6 witness: the zero-width image `"flat"` in both commands. -/
theorem C6_witness :
    MacSystrayCmd env1
        [cs "_systray", cs "create", cs "flat", cs "tip", cs "cb"] st0 =
      some (TclResult.ok,
        { st0 with
          tk_item := { st0.tk_item with tooltip := some "tip" },
          callbackproc := some (cs "cb") }) ∧
    MacSystrayCmd env1 [cs "_systray", cs "modify", cs "image", cs "flat"]
        st0 =
      some (TclResult.ok, st0) :=
  ⟨C6_zero_area_image_skipped.1 env1
      [cs "_systray", cs "create", cs "flat", cs "tip", cs "cb"] st0
      (cs "create") (cs "flat") (cs "tip") (cs "cb") imgFlat
      rfl (by decide) (by decide) rfl rfl rfl rfl (Or.inl rfl) rfl,
    C6_zero_area_image_skipped.2 env1
      [cs "_systray", cs "modify", cs "image", cs "flat"] st0
      (cs "modify") (cs "image") (cs "flat") imgFlat
      rfl (by decide) (by decide) rfl rfl rfl rfl (Or.inl rfl)⟩

/-- Claim C7: a `modify` with at least four words whose target word is
none of `image`, `text`, `callback` changes nothing and returns TCL_OK
with no error. -/
theorem C7_modify_unknown_target_noop (env : TkEnv) (argv : List CStr)
    (st : SysTrayState) (a1 a2 a3 : CStr) (h1 : argv.get? 1 = some a1)
    (hm : matchesWord a1 "modify" = true) (hlen : 4 ≤ argv.length)
    (h2 : argv.get? 2 = some a2) (h3 : argv.get? 3 = some a3)
    (hni : a2.bytes ≠ "image") (hnt : a2.bytes ≠ "text")
    (hnc : a2.bytes ≠ "callback") :
    MacSystrayCmd env argv st = some (TclResult.ok, st) := by
  rw [MacSystrayCmd_modify_branch env argv st a1 h1 hm,
      systrayModify_of_get env argv st a2 a3 hlen h2 h3]
  unfold systrayModifyArgs
  rw [if_neg hni, if_neg hnt, if_neg hnc]

/-- Claim C7 witness: the unrecognized target word `"color"`. -/
theorem C7_witness :
    MacSystrayCmd env1 [cs "_systray", cs "modify", cs "color", cs "red"]
        st0 =
      some (TclResult.ok, st0) :=
  C7_modify_unknown_target_noop env1
    [cs "_systray", cs "modify", cs "color", cs "red"] st0
    (cs "modify") (cs "color") (cs "red")
    rfl (by decide) (by decide) rfl rfl (by decide) (by decide) (by decide)

/-- Claim C8: `_sysnotify` with exactly two positional arguments that
convert to text succeeds and leaves the notification descriptor holding
exactly that title and that message; with fewer than two positional
arguments it returns an error whose message carries the usage hint. -/
theorem C8_sysnotify_post_and_usage :
    (∀ (a0 a1 a2 : CStr) (item : TkNotifyItem),
        a1.validUTF8 = true → a2.validUTF8 = true →
        SysNotifyCmd [a0, a1, a2] item =
          some (TclResult.ok,
            { item with
              header := some a1.bytes
              info := some a2.bytes
              soundName := some "NSUserNotificationDefaultSoundName"
              delegateInstalled := true
              deliveredCount := item.deliveredCount + 1 }))
    ∧ (∀ (argv : List CStr) (item : TkNotifyItem) (a0 : CStr),
        argv.get? 0 = some a0 → argv.length < 3 →
        SysNotifyCmd argv item =
          some (TclResult.error
            ("wrong # args,must be:" ++ a0.bytes ++ " title  message "),
            item)) := by
  constructor
  · intro a0 a1 a2 item h1 h2
    simp [SysNotifyCmd, postNotificationWithTitle, stringWithUTF8String,
      h1, h2]
  · intro argv item a0 h0 hlen
    unfold SysNotifyCmd
    rw [h0]
    dsimp only
    rw [if_pos hlen]

/-- Claim C8 witness: `_sysnotify "Build" "Completed successfully"`
succeeds and holds those texts; a one-argument call gets the usage
error. -/
theorem C8_witness :
    SysNotifyCmd
        [cs "_sysnotify", cs "Build", cs "Completed successfully"]
        TkNotifyItem.initItem =
      some (TclResult.ok,
        { TkNotifyItem.initItem with
          header := some "Build"
          info := some "Completed successfully"
          soundName := some "NSUserNotificationDefaultSoundName"
          delegateInstalled := true
          deliveredCount := 1 }) ∧
    SysNotifyCmd [cs "_sysnotify", cs "Build"] TkNotifyItem.initItem =
      some (TclResult.error "wrong # args,must be:_sysnotify title  message ",
        TkNotifyItem.initItem) :=
  ⟨C8_sysnotify_post_and_usage.1 (cs "_sysnotify") (cs "Build")
      (cs "Completed successfully") TkNotifyItem.initItem rfl rfl,
    C8_sysnotify_post_and_usage.2 [cs "_sysnotify", cs "Build"]
      TkNotifyItem.initItem (cs "_sysnotify") rfl (by decide)⟩

/-- Claim C9: once the argument-count checks pass, the callback argument
is a non-null string, so the "unable to get the callback" error branch
never fires: no outcome of a `create` carries that error; a `create`
that reaches the callback step stores exactly `argv[4]`; and a
`modify callback` always succeeds and stores exactly `argv[3]`. -/
theorem C9_callback_error_unreachable :
    (∀ (env : TkEnv) (argv : List CStr) (st : SysTrayState) (a1 : CStr),
        argv.get? 1 = some a1 → matchesWord a1 "create" = true →
        5 ≤ argv.length →
        ∀ (r : TclResult) (st2 : SysTrayState),
          MacSystrayCmd env argv st = some (r, st2) →
          r ≠ TclResult.error " unable to get the callback for systray icon")
    ∧ (∀ (env : TkEnv) (argv : List CStr) (st : SysTrayState)
        (a1 a2 a3 a4 : CStr) (img : TkImage),
        argv.get? 1 = some a1 → matchesWord a1 "create" = true →
        5 ≤ argv.length → argv.get? 2 = some a2 → argv.get? 3 = some a3 →
        argv.get? 4 = some a4 → env.imageLookup a2.bytes = some img →
        a3.validUTF8 = true →
        ∃ st2, MacSystrayCmd env argv st = some (TclResult.ok, st2) ∧
          st2.callbackproc = some a4)
    ∧ (∀ (env : TkEnv) (argv : List CStr) (st : SysTrayState) (a1 a2 a3 : CStr),
        argv.get? 1 = some a1 → matchesWord a1 "modify" = true →
        4 ≤ argv.length → argv.get? 2 = some a2 → a2.bytes = "callback" →
        argv.get? 3 = some a3 →
        MacSystrayCmd env argv st =
          some (TclResult.ok, { st with callbackproc := some a3 })) := by
  refine ⟨?_, ?_, ?_⟩
  · intro env argv st a1 h1 hm hlen r st2 heq
    obtain ⟨a2, h2⟩ : ∃ x, argv.get? 2 = some x :=
      ⟨_, List.get?_eq_get (by omega)⟩
    obtain ⟨a3, h3⟩ : ∃ x, argv.get? 3 = some x :=
      ⟨_, List.get?_eq_get (by omega)⟩
    obtain ⟨a4, h4⟩ : ∃ x, argv.get? 4 = some x :=
      ⟨_, List.get?_eq_get (by omega)⟩
    rw [MacSystrayCmd_create_branch env argv st a1 h1 hm,
        systrayCreate_of_get env argv st a2 a3 a4 hlen h2 h3 h4] at heq
    unfold systrayCreateArgs at heq
    cases himg : env.imageLookup a2.bytes with
    | none =>
      rw [himg] at heq
      simp at heq
      obtain ⟨hr, -⟩ := heq
      subst hr
      decide
    | some img =>
      rw [himg] at heq
      cases hss : stringWithUTF8String a3 with
      | none =>
        simp [hss] at heq
        obtain ⟨hr, -⟩ := heq
        subst hr
        decide
      | some tooltip =>
        simp [hss] at heq
        obtain ⟨hr, -⟩ := heq
        subst hr
        decide
  · intro env argv st a1 a2 a3 a4 img h1 hm hlen h2 h3 h4 himg htt
    by_cases hz : img.width ≠ 0 ∧ img.height ≠ 0
    · have hres : MacSystrayCmd env argv st =
          some (TclResult.ok,
            { st with
              tk_item := { icon := some ⟨img⟩, tooltip := some a3.bytes,
                           removedFromBar := st.tk_item.removedFromBar },
              callbackproc := some a4 }) := by
        rw [MacSystrayCmd_create_branch env argv st a1 h1 hm,
            systrayCreate_of_get env argv st a2 a3 a4 hlen h2 h3 h4]
        unfold systrayCreateArgs
        rw [himg]
        simp [hz, stringWithUTF8String, htt, setImagewithImage,
          setTextwithString, TkMacOSXGetNSImageFromTkImage]
      exact ⟨_, hres, rfl⟩
    · have hres : MacSystrayCmd env argv st =
          some (TclResult.ok,
            { st with
              tk_item := { st.tk_item with tooltip := some a3.bytes },
              callbackproc := some a4 }) := by
        rw [MacSystrayCmd_create_branch env argv st a1 h1 hm,
            systrayCreate_of_get env argv st a2 a3 a4 hlen h2 h3 h4]
        unfold systrayCreateArgs
        rw [himg]
        simp [hz, stringWithUTF8String, htt, setTextwithString]
      exact ⟨_, hres, rfl⟩
  · intro env argv st a1 a2 a3 h1 hm hlen h2 hb h3
    rw [MacSystrayCmd_modify_branch env argv st a1 h1 hm,
        systrayModify_of_get env argv st a2 a3 hlen h2 h3]
    unfold systrayModifyArgs
    rw [if_neg (by simp [hb]), if_neg (by simp [hb]), if_pos hb]
    simp

/-- Claim C9 witness: the three statements at concrete inputs. -/
theorem C9_witness :
    (TclResult.ok ≠
      TclResult.error " unable to get the callback for systray icon") ∧
    (∃ st2, MacSystrayCmd env1
        [cs "_systray", cs "create", cs "icon16", cs "tip", cs "cb"] st0 =
          some (TclResult.ok, st2) ∧ st2.callbackproc = some (cs "cb")) ∧
    MacSystrayCmd env1 [cs "_systray", cs "modify", cs "callback", cs "beep2"]
        st0 =
      some (TclResult.ok, { st0 with callbackproc := some (cs "beep2") }) :=
  ⟨C9_callback_error_unreachable.1 env1
      [cs "_systray", cs "create", cs "icon16", cs "tip", cs "cb"] st0
      (cs "create") rfl (by decide) (by decide) TclResult.ok
      { st0 with
        tk_item := { icon := some ⟨img16⟩, tooltip := some "tip",
                     removedFromBar := false },
        callbackproc := some (cs "cb") }
      (by decide),
    C9_callback_error_unreachable.2.1 env1
      [cs "_systray", cs "create", cs "icon16", cs "tip", cs "cb"] st0
      (cs "create") (cs "icon16") (cs "tip") (cs "cb") img16
      rfl (by decide) (by decide) rfl rfl rfl rfl rfl,
    C9_callback_error_unreachable.2.2 env1
      [cs "_systray", cs "modify", cs "callback", cs "beep2"] st0
      (cs "modify") (cs "callback") (cs "beep2")
      rfl (by decide) (by decide) rfl rfl rfl⟩

/-- Claim C1 counterexample: on macOS version 10.09 (100900 < 101000)
the claim fails as stated — the notification command `_sysnotify` is NOT
registered either, because the version check returns before both
`Tcl_CreateCommand` calls. -/
theorem C1_counterexample :
    ¬ ("_sysnotify" ∈ (MacSystrayInit 100900 interp0).interp.commands) := by
  decide

/-- Claim C1 as amended: on a hosting platform version below the fixed
minimum, initialization returns the warning result (the `TCL_OK` code
with the warning appended to the interpreter result) and registers
neither the tray command nor the notification command. -/
theorem C1_old_version_registers_nothing (v : Int) (interp : InterpState)
    (hv : v < 101000) :
    (MacSystrayInit v interp).code = TCL_OK ∧
    (MacSystrayInit v interp).interp.result =
      interp.result ++
        "Statusitem icons not supported on versions of macOS lower than 10.10" ∧
    (MacSystrayInit v interp).interp.commands = interp.commands := by
  unfold MacSystrayInit
  simp [hv]

/-- Claim C1 witness: the amended claim at version 10.09 with a fresh
interpreter. -/
theorem C1_witness :
    (MacSystrayInit 100900 interp0).code = TCL_OK ∧
    (MacSystrayInit 100900 interp0).interp.result =
      interp0.result ++
        "Statusitem icons not supported on versions of macOS lower than 10.10" ∧
    (MacSystrayInit 100900 interp0).interp.commands = interp0.commands :=
  C1_old_version_registers_nothing 100900 interp0 (by decide)
